import Mathlib

/-!
Shallow embedding of the resilience/throttling control plane of the
AI-Products-Recommender backend:

* `APIKeyManager`  — backend/config/api_key_manager.py (credential pool)
* `RateLimiter`    — backend/utils/rate_limiter.py (sliding-window limiter)
* `CircuitBreaker` — backend/utils/circuit_breaker.py (3-state breaker)
* `TTLCache`       — backend/utils/cache_manager.py (bounded TTL cache)

Modelling conventions:
* Timestamps (`time.time()`, `datetime.now()`) are modelled as `Int` seconds;
  each operation takes the single sampling instant `now` as a parameter.
* Python `None` becomes `Option.none`; a Python operation that can raise is
  given an `Except`/sum result type where the raise is reachable.
* Python's `collections.deque` of timestamps is a `List Int`, oldest first;
  `OrderedDict` is an association `List (String × _)` in insertion order,
  front = oldest (least recently used).
* Locks and logging are dropped: every modelled operation is the atomic
  body of its critical section.
-/

/-! ### String helpers (Python `in` substring test and `str.lower`) -/

/-- Does the second list start with the first one (character pattern match at
the front)? Mirrors Python's prefix step of substring search. -/
def matchFront : List Char → List Char → Bool
  | [], _ => true
  | _ :: _, [] => false
  | p :: ps, c :: cs => p == c && matchFront ps cs

/-- Does `pat` occur as a contiguous run inside the list? Mirrors Python's
`pat in s` substring containment. -/
def hasSub (pat : List Char) : List Char → Bool
  | [] => matchFront pat []
  | c :: cs => matchFront pat (c :: cs) || hasSub pat cs

/-- Python `pat in s` on strings. -/
def strHas (s pat : String) : Bool :=
  hasSub pat.toList s.toList

/-- ASCII lowercase of one character (model of CPython `str.lower` on the
ASCII error messages the pool inspects). -/
def lowChar (c : Char) : Char :=
  if 65 ≤ c.toNat ∧ c.toNat ≤ 90 then Char.ofNat (c.toNat + 32) else c

/-- Python `s.lower()`. -/
def lowerStr (s : String) : String :=
  String.mk (s.toList.map lowChar)

/-! ### APIKeyManager (backend/config/api_key_manager.py) -/

/-- State of the `APIKeyManager` singleton: the ordered key pool, the
rotation index and the set of revoked (compromised) keys. -/
structure APIKeyManager where
  google_keys : List String
  current_index : Nat
  compromised_keys : List String
  deriving DecidableEq, Repr

namespace APIKeyManager

/-- `get_current_google_key`: `None` if the pool is empty, else the key at
`current_index % len` (the spec's `current()`; `none` is the realization of
`CredentialExhaustedError` — the source returns Python `None`). -/
def get_current_google_key (p : APIKeyManager) : Option String :=
  if p.google_keys.isEmpty then none
  else p.google_keys[p.current_index % p.google_keys.length]?

/-- `rotate_google_key`: advance the index modulo pool size; no-op returning
`false` when fewer than two keys remain. -/
def rotate_google_key (p : APIKeyManager) : APIKeyManager × Bool :=
  if p.google_keys.length ≤ 1 then (p, false)
  else ({ p with current_index := (p.current_index + 1) % p.google_keys.length }, true)

/-- `_remove_compromised_key`: remove the first occurrence of `key` from the
pool, record it as compromised, and clamp the index to `0` when it fell out
of range (only while the pool stays non-empty). -/
def remove_compromised_key (p : APIKeyManager) (key : String) : APIKeyManager × Bool :=
  if key ∈ p.google_keys then
    let keys := p.google_keys.erase key
    let idx := if p.current_index ≥ keys.length ∧ ¬keys.isEmpty then 0 else p.current_index
    ({ google_keys := keys
       current_index := idx
       compromised_keys := p.compromised_keys.insert key }, true)
  else (p, false)

/-- The source's leaked-key sniff: `"leaked" in str(e).lower() or
"compromised" in str(e).lower()`. -/
def isLeakedError (err : String) : Bool :=
  strHas (lowerStr err) "leaked" || strHas (lowerStr err) "compromised"

/-- The source's quota sniff: `"429" in str(e) or "resource exhausted" in
str(e).lower() or "quota" in str(e).lower()`. -/
def isQuotaError (err : String) : Bool :=
  strHas err "429" || strHas (lowerStr err) "resource exhausted"
    || strHas (lowerStr err) "quota"

/-- The tail of `handle_api_error` after the leaked-key block falls
through: rotate on a quota-classified error, else no state change and
`false`. -/
def quota_branch (p : APIKeyManager) (error : String) : APIKeyManager × Bool :=
  if isQuotaError error then p.rotate_google_key else (p, false)

/-- Python's `current_key or self.get_current_google_key()`: an absent or
empty (falsy) `current_key` falls back to the current key. -/
def keyToRemove (p : APIKeyManager) (current_key : Option String) : Option String :=
  match current_key with
  | some k => if k = "" then p.get_current_google_key else some k
  | none => p.get_current_google_key

/-- `handle_api_error`: on a leaked/compromised-classified error with a
truthy key to remove, revoke that key and return the result of a rotation;
otherwise fall through to the quota branch. -/
def handle_api_error (p : APIKeyManager) (error : String) (current_key : Option String) :
    APIKeyManager × Bool :=
  if isLeakedError error then
    match p.keyToRemove current_key with
    | some k =>
        if k = "" then p.quota_branch error
        else ((p.remove_compromised_key k).1).rotate_google_key
    | none => p.quota_branch error
  else p.quota_branch error

/-- `rotate_to_specific_key`: jump to a given index when in range. -/
def rotate_to_specific_key (p : APIKeyManager) (index : Nat) : APIKeyManager × Bool :=
  if index ≥ p.google_keys.length then (p, false)
  else ({ p with current_index := index }, true)

/-- `reset_rotation`: back to the first key. -/
def reset_rotation (p : APIKeyManager) : APIKeyManager :=
  { p with current_index := 0 }

end APIKeyManager

/-- The mutating operations a caller can perform on the pool after start-up
(reads such as `get_status` do not change state and are omitted). -/
inductive PoolOp where
  | handleError (err : String) (currentKey : Option String)
  | removeCompromised (key : String)
  | rotate
  | rotateToSpecific (i : Nat)
  | resetRotation
  deriving DecidableEq, Repr

namespace APIKeyManager

/-- Apply one pool operation, keeping only the resulting state. -/
def applyOp (p : APIKeyManager) : PoolOp → APIKeyManager
  | .handleError err ck => (p.handle_api_error err ck).1
  | .removeCompromised k => (p.remove_compromised_key k).1
  | .rotate => p.rotate_google_key.1
  | .rotateToSpecific i => (p.rotate_to_specific_key i).1
  | .resetRotation => p.reset_rotation

/-- Apply a sequence of pool operations in order. -/
def applyOps (p : APIKeyManager) (ops : List PoolOp) : APIKeyManager :=
  ops.foldl applyOp p

end APIKeyManager

/-! ### RateLimiter (backend/utils/rate_limiter.py) -/

/-- Python truthiness of an optional integer limit (`None` and `0` are
falsy). -/
def optTruthy : Option Nat → Bool
  | none => false
  | some n => n != 0

/-- State of one `RateLimiter` instance. `minute_window` always exists; the
hour/day windows exist (`some`) exactly when their limit was truthy at
construction. Each window is a list of request timestamps, oldest first. -/
structure RateLimiter where
  requests_per_minute : Nat
  requests_per_hour : Option Nat
  requests_per_day : Option Nat
  minute_window : List Int
  hour_window : Option (List Int)
  day_window : Option (List Int)
  total_requests : Nat
  total_blocked : Nat
  deriving DecidableEq, Repr

namespace RateLimiter

/-- `__init__`: fresh limiter; hour/day windows are created only when the
corresponding limit is truthy. -/
def mkRateLimiter (rpm : Nat) (rph rpd : Option Nat) : RateLimiter :=
  { requests_per_minute := rpm
    requests_per_hour := rph
    requests_per_day := rpd
    minute_window := []
    hour_window := if optTruthy rph then some [] else none
    day_window := if optTruthy rpd then some [] else none
    total_requests := 0
    total_blocked := 0 }

/-- One window's pruning loop: pop from the left while the oldest entry is
strictly older than `dur` seconds. -/
def pruneWindow (now : Int) (dur : Int) (w : List Int) : List Int :=
  w.dropWhile (fun ts => decide (now - ts > dur))

/-- `_clean_old_requests`: prune all three windows (60 s / 3600 s / 86400 s). -/
def clean_old_requests (now : Int) (lim : RateLimiter) : RateLimiter :=
  { lim with
    minute_window := pruneWindow now 60 lim.minute_window
    hour_window := lim.hour_window.map (pruneWindow now 3600)
    day_window := lim.day_window.map (pruneWindow now 86400) }

/-- Python truthiness of an optional deque (absent or empty are falsy). -/
def deqTruthy : Option (List Int) → Bool
  | none => false
  | some w => !w.isEmpty

/-- `try_acquire`: prune, then reject (counting the block) if any present
window is at its limit, else append `now` to every present window. -/
def try_acquire (lim : RateLimiter) (now : Int) : RateLimiter × Bool :=
  let l := clean_old_requests now lim
  if l.minute_window.length ≥ l.requests_per_minute then
    ({ l with total_blocked := l.total_blocked + 1 }, false)
  else if deqTruthy l.hour_window && optTruthy l.requests_per_hour
      && decide ((l.hour_window.getD []).length ≥ l.requests_per_hour.getD 0) then
    ({ l with total_blocked := l.total_blocked + 1 }, false)
  else if deqTruthy l.day_window && optTruthy l.requests_per_day
      && decide ((l.day_window.getD []).length ≥ l.requests_per_day.getD 0) then
    ({ l with total_blocked := l.total_blocked + 1 }, false)
  else
    ({ l with
        minute_window := l.minute_window ++ [now]
        hour_window := l.hour_window.map (· ++ [now])
        day_window := l.day_window.map (· ++ [now])
        total_requests := l.total_requests + 1 }, true)

/-- `_time_until_available`: prune, then — looking at the minute window
only — return `0` when it is below capacity, else the time until its oldest
entry leaves the 60 s window. `none` models the `IndexError` the source
raises when `requests_per_minute = 0` leaves an empty window "at capacity". -/
def time_until_available (lim : RateLimiter) (now : Int) : Option Int :=
  let l := clean_old_requests now lim
  if l.minute_window.length < l.requests_per_minute then some 0
  else
    match l.minute_window.head? with
    | none => none
    | some oldest => some (max 0 (60 - (now - oldest)))

end RateLimiter

/-- The claim-side count: how many timestamps of a window fall inside the
closed sliding interval `[now − dur, now]`. -/
def countWithin (now dur : Int) (w : List Int) : Nat :=
  (w.filter (fun ts => decide (now - ts ≤ dur ∧ ts ≤ now))).length

/-! ### CircuitBreaker (backend/utils/circuit_breaker.py) -/

/-- The three breaker states. -/
inductive CircuitState where
  | CLOSED
  | OPEN
  | HALF_OPEN
  deriving DecidableEq, Repr

/-- State of one `CircuitBreaker` instance (configuration plus counters). -/
structure CircuitBreaker where
  failure_threshold : Nat
  timeout_seconds : Int
  half_open_max_calls : Nat
  state : CircuitState
  failure_count : Nat
  success_count : Nat
  last_failure_time : Option Int
  half_open_calls : Nat
  total_calls : Nat
  total_failures : Nat
  total_successes : Nat
  circuit_opened_count : Nat
  deriving DecidableEq, Repr

/-- Outcome of the protected downstream function: a value, or an exception
that either matches the breaker's `expected_exception` predicate
(`exc true`) or does not (`exc false`). -/
inductive Outcome (α : Type) where
  | ok (v : α)
  | exc (counted : Bool)
  deriving DecidableEq, Repr

/-- What `CircuitBreaker.call` hands back to the caller: the downstream
result, a `CircuitBreakerError` raised by the breaker itself, or the
downstream exception re-raised unchanged. -/
inductive CallResult (α : Type) where
  | result (v : α)
  | circuitBreakerError
  | raised (counted : Bool)
  deriving DecidableEq, Repr

namespace CircuitBreaker

/-- Fresh breaker (`__init__`). -/
def mkCircuitBreaker (thr : Nat) (timeout : Int) (maxCalls : Nat) : CircuitBreaker :=
  { failure_threshold := thr
    timeout_seconds := timeout
    half_open_max_calls := maxCalls
    state := .CLOSED
    failure_count := 0
    success_count := 0
    last_failure_time := none
    half_open_calls := 0
    total_calls := 0
    total_failures := 0
    total_successes := 0
    circuit_opened_count := 0 }

/-- `_should_attempt_reset`: has `timeout_seconds` elapsed since the last
counted failure? -/
def should_attempt_reset (cb : CircuitBreaker) (now : Int) : Bool :=
  match cb.last_failure_time with
  | none => false
  | some t => decide (now - t ≥ cb.timeout_seconds)

/-- `_transition_to_half_open`: enter HALF_OPEN, resetting only the
half-open admission counter. -/
def transition_to_half_open (cb : CircuitBreaker) : CircuitBreaker :=
  { cb with state := .HALF_OPEN, half_open_calls := 0 }

/-- `_transition_to_open`: enter OPEN (when not already there), bumping the
opened counter and stamping `last_failure_time`. -/
def transition_to_open (cb : CircuitBreaker) (now : Int) : CircuitBreaker :=
  if cb.state ≠ .OPEN then
    { cb with
        state := .OPEN
        circuit_opened_count := cb.circuit_opened_count + 1
        last_failure_time := some now }
  else cb

/-- `_transition_to_closed`: enter CLOSED, zeroing `failure_count`,
`success_count` and `half_open_calls`. -/
def transition_to_closed (cb : CircuitBreaker) : CircuitBreaker :=
  { cb with state := .CLOSED, failure_count := 0, success_count := 0, half_open_calls := 0 }

/-- The `state` property's side effect: lazily move OPEN to HALF_OPEN once
the timeout has elapsed; otherwise leave the breaker unchanged. The
property's value is `(stateQuery cb now).state`. -/
def stateQuery (cb : CircuitBreaker) (now : Int) : CircuitBreaker :=
  if cb.state = .OPEN ∧ should_attempt_reset cb now then transition_to_half_open cb
  else cb

/-- `_on_success`: bump totals and `success_count`; in HALF_OPEN close the
circuit once `success_count` reaches `half_open_max_calls`; in CLOSED reset
a non-zero `failure_count`. -/
def on_success (cb : CircuitBreaker) : CircuitBreaker :=
  let c := { cb with
    total_successes := cb.total_successes + 1
    success_count := cb.success_count + 1 }
  if c.state = .HALF_OPEN then
    if c.success_count ≥ c.half_open_max_calls then transition_to_closed c else c
  else if c.state = .CLOSED then
    if c.failure_count > 0 then { c with failure_count := 0 } else c
  else c

/-- `_on_failure`: bump totals and `failure_count`, stamp
`last_failure_time`; reopen immediately from HALF_OPEN, or open from
CLOSED once the threshold is reached. -/
def on_failure (cb : CircuitBreaker) (now : Int) : CircuitBreaker :=
  let c := { cb with
    total_failures := cb.total_failures + 1
    failure_count := cb.failure_count + 1
    last_failure_time := some now }
  if c.state = .HALF_OPEN then transition_to_open c now
  else if c.failure_count ≥ c.failure_threshold then transition_to_open c now
  else c

/-- `call`: count the call, read the (lazily transitioning) state, fail
fast when OPEN or past the HALF_OPEN admission cap, otherwise run the
downstream function and do success/failure bookkeeping — an exception not
matching the predicate is re-raised with no bookkeeping at all. -/
def call (cb : CircuitBreaker) (now : Int) (outcome : Outcome α) :
    CircuitBreaker × CallResult α :=
  let c0 := { cb with total_calls := cb.total_calls + 1 }
  let c1 := stateQuery c0 now
  if c1.state = .OPEN then (c1, .circuitBreakerError)
  else
    let admitted : Option CircuitBreaker :=
      if c1.state = .HALF_OPEN then
        if c1.half_open_calls ≥ c1.half_open_max_calls then none
        else some { c1 with half_open_calls := c1.half_open_calls + 1 }
      else some c1
    match admitted with
    | none => (c1, .circuitBreakerError)
    | some c2 =>
        match outcome with
        | .ok v => (on_success c2, .result v)
        | .exc true => (on_failure c2 now, .raised true)
        | .exc false => (c2, .raised false)

/-- Run a sequence of calls (timestamp/outcome pairs), keeping the state. -/
def runCalls (cb : CircuitBreaker) (steps : List (Int × Outcome α)) : CircuitBreaker :=
  steps.foldl (fun c s => (call c s.1 s.2).1) cb

end CircuitBreaker

/-! ### TTLCache (backend/utils/cache_manager.py) -/

/-- One cache entry (`{"value": v, "created_at": t, "expires_at": t+ttl}`). -/
structure CacheEntry (α : Type) where
  value : α
  created_at : Int
  expires_at : Int
  deriving DecidableEq, Repr

/-- State of one `TTLCache` instance. `cache` models the `OrderedDict` as an
association list in insertion/recency order, front = least recently used. -/
structure TTLCache (α : Type) where
  ttl_seconds : Int
  max_size : Nat
  cache : List (String × CacheEntry α)
  hits : Nat
  misses : Nat
  evictions : Nat
  expirations : Nat
  deriving DecidableEq, Repr

namespace TTLCache

/-- Fresh cache (`__init__`). -/
def mkTTLCache (ttl : Int) (maxSize : Nat) : TTLCache α :=
  { ttl_seconds := ttl, max_size := maxSize, cache := []
    hits := 0, misses := 0, evictions := 0, expirations := 0 }

/-- Dict lookup `self.cache[key]` (guarded by a containment check in the
source, so the `Option` is always consulted first). -/
def lookupEntry (key : String) (l : List (String × CacheEntry α)) : Option (CacheEntry α) :=
  (l.find? (fun kv => kv.1 == key)).map (·.2)

/-- `del self.cache[key]`. -/
def eraseKey (key : String) (l : List (String × CacheEntry α)) : List (String × CacheEntry α) :=
  l.filter (fun kv => !(kv.1 == key))

/-- `self.cache.move_to_end(key)`: keep every other entry in order and move
the keyed entry to the back (most recently used). -/
def moveToEnd (key : String) (l : List (String × CacheEntry α)) : List (String × CacheEntry α) :=
  l.filter (fun kv => !(kv.1 == key)) ++ l.filter (fun kv => kv.1 == key)

/-- `get`: miss when absent; lazily delete and miss when expired
(`now > expires_at`); otherwise move to the recent end and return a hit. -/
def get (c : TTLCache α) (key : String) (now : Int) : TTLCache α × Option α :=
  match lookupEntry key c.cache with
  | none => ({ c with misses := c.misses + 1 }, none)
  | some entry =>
      if now > entry.expires_at then
        ({ c with
            cache := eraseKey key c.cache
            expirations := c.expirations + 1
            misses := c.misses + 1 }, none)
      else
        ({ c with cache := moveToEnd key c.cache, hits := c.hits + 1 }, some entry.value)

/-- `set`: when inserting a new key at capacity, evict the front
(least-recently-used) entry first — `next(iter(self.cache))` raises
`StopIteration` (modelled as `Except.error`) on an empty dict, which is
reachable exactly when `max_size = 0`; then write the entry and move it to
the recent end. -/
def set (c : TTLCache α) (key : String) (value : α) (ttl_seconds : Option Int)
    (now : Int) : Except Unit (TTLCache α) :=
  let ttl := ttl_seconds.getD c.ttl_seconds
  let afterEvict : Except Unit (TTLCache α) :=
    if ¬(lookupEntry key c.cache).isSome ∧ c.cache.length ≥ c.max_size then
      match c.cache.head? with
      | none => .error ()
      | some kv => .ok { c with cache := eraseKey kv.1 c.cache, evictions := c.evictions + 1 }
    else .ok c
  afterEvict.map (fun c1 =>
    { c1 with
        cache := eraseKey key c1.cache
          ++ [(key, { value := value, created_at := now, expires_at := now + ttl })] })

/-- `invalidate`: delete the key when present, reporting whether it was. -/
def invalidate (c : TTLCache α) (key : String) : TTLCache α × Bool :=
  if (lookupEntry key c.cache).isSome then
    ({ c with cache := eraseKey key c.cache }, true)
  else (c, false)

/-- `invalidate_pattern`: delete every key containing the substring,
returning how many were deleted. -/
def invalidate_pattern (c : TTLCache α) (pat : String) : TTLCache α × Nat :=
  let doomed := c.cache.filter (fun kv => strHas kv.1 pat)
  ({ c with cache := c.cache.filter (fun kv => !(strHas kv.1 pat)) }, doomed.length)

/-- `cleanup_expired`: sweep every entry with `now > expires_at`, counting
them into the expiration statistic and the return value. -/
def cleanup_expired (c : TTLCache α) (now : Int) : TTLCache α × Nat :=
  let doomed := c.cache.filter (fun kv => decide (now > kv.2.expires_at))
  ({ c with
      cache := c.cache.filter (fun kv => !(decide (now > kv.2.expires_at)))
      expirations := c.expirations + doomed.length }, doomed.length)

end TTLCache

/-! ### Pool lemmas -/

namespace APIKeyManager

/-- `current()` only ever produces a member of the key pool. -/
theorem mem_of_get_current {p : APIKeyManager} {c : String}
    (h : p.get_current_google_key = some c) : c ∈ p.google_keys := by
  unfold get_current_google_key at h
  split at h
  · exact absurd h (by simp)
  · rw [List.getElem?_eq_some] at h
    obtain ⟨hlt, rfl⟩ := h
    exact List.getElem_mem _

/-- Non-membership survives erasing any key. -/
theorem notMem_erase_of_notMem {c k : String} {l : List String}
    (h : c ∉ l) : c ∉ l.erase k :=
  fun hmem => h (List.mem_of_mem_erase hmem)

/-- `_remove_compromised_key` leaves the pool or erases the named key. -/
theorem remove_keys_cases (p : APIKeyManager) (k : String) :
    (p.remove_compromised_key k).1.google_keys = p.google_keys ∨
      (p.remove_compromised_key k).1.google_keys = p.google_keys.erase k := by
  unfold remove_compromised_key
  split
  · right; rfl
  · left; rfl

/-- Rotation never changes the key pool. -/
theorem rotate_keys (p : APIKeyManager) :
    p.rotate_google_key.1.google_keys = p.google_keys := by
  unfold rotate_google_key
  split <;> rfl

/-- The quota branch never changes the key pool. -/
theorem quota_branch_keys (p : APIKeyManager) (err : String) :
    (p.quota_branch err).1.google_keys = p.google_keys := by
  unfold quota_branch
  split
  · exact rotate_keys p
  · rfl

/-- `handle_api_error` leaves the pool or erases one key. -/
theorem handle_keys_cases (p : APIKeyManager) (err : String) (ck : Option String) :
    (p.handle_api_error err ck).1.google_keys = p.google_keys ∨
      ∃ k, (p.handle_api_error err ck).1.google_keys = p.google_keys.erase k := by
  unfold handle_api_error
  split
  · split
    · rename_i k _
      split
      · exact Or.inl (quota_branch_keys p err)
      · rw [rotate_keys]
        rcases remove_keys_cases p k with h | h
        · exact Or.inl h
        · exact Or.inr ⟨k, h⟩
    · exact Or.inl (quota_branch_keys p err)
  · exact Or.inl (quota_branch_keys p err)

/-- No single pool operation can introduce a key into the pool. -/
theorem notMem_applyOp {c : String} (p : APIKeyManager) (op : PoolOp)
    (h : c ∉ p.google_keys) : c ∉ (p.applyOp op).google_keys := by
  cases op with
  | handleError err ck =>
      rcases handle_keys_cases p err ck with heq | ⟨k, heq⟩
      · simpa [applyOp, heq]
      · simp only [applyOp, heq]
        exact notMem_erase_of_notMem h
  | removeCompromised k =>
      rcases remove_keys_cases p k with heq | heq
      · simpa [applyOp, heq]
      · simp only [applyOp, heq]
        exact notMem_erase_of_notMem h
  | rotate => simpa [applyOp, rotate_keys]
  | rotateToSpecific i =>
      simp only [applyOp]
      unfold rotate_to_specific_key
      split <;> simpa
  | resetRotation => simpa [applyOp, reset_rotation]

/-- No sequence of pool operations can introduce a key into the pool. -/
theorem notMem_applyOps {c : String} (ops : List PoolOp) :
    ∀ p : APIKeyManager, c ∉ p.google_keys → c ∉ (p.applyOps ops).google_keys := by
  induction ops with
  | nil => intro p h; simpa [applyOps]
  | cons op rest ih =>
      intro p h
      simpa [applyOps, List.foldl_cons] using ih _ (notMem_applyOp p op h)

/-- A leaked-classified error (with the current key to blame and a
duplicate-free pool) leaves a pool no longer containing that key. -/
theorem handle_leaked_removes {p : APIKeyManager} {c err : String}
    (hnd : p.google_keys.Nodup) (hcur : p.get_current_google_key = some c)
    (hne : c ≠ "") (hleak : isLeakedError err = true) :
    c ∉ (p.handle_api_error err none).1.google_keys := by
  have hmem : c ∈ p.google_keys := mem_of_get_current hcur
  unfold handle_api_error keyToRemove
  rw [hleak]
  simp only [if_true, hcur]
  rw [if_neg hne, rotate_keys]
  unfold remove_compromised_key
  rw [if_pos hmem]
  intro hin
  exact ((List.Nodup.mem_erase_iff hnd).mp hin).1 rfl

end APIKeyManager

/-! ### Claim theorems: the credential pool -/

/-- C1: for every pool state in which the credential list is empty —
including states reached by revoking every key through error handling —
`current()` yields the exhausted failure (`none`, the source's realization
of the spec's `CredentialExhaustedError`: Python returns `None`), and the
pool's own error handler does not recover from it: `handle_api_error` on
such a pool returns it unchanged with `false`, so the failure propagates to
the caller. -/
theorem C1_exhausted_pool_current_fails (p : APIKeyManager)
    (h : p.google_keys = []) :
    p.get_current_google_key = none ∧
      ∀ err ck, p.handle_api_error err ck = (p, false) := by
  have hcur : p.get_current_google_key = none := by
    unfold APIKeyManager.get_current_google_key
    simp [h]
  have hrot : p.rotate_google_key = (p, false) := by
    unfold APIKeyManager.rotate_google_key
    simp [h]
  refine ⟨hcur, ?_⟩
  intro err ck
  have hq : p.quota_branch err = (p, false) := by
    unfold APIKeyManager.quota_branch
    split <;> simp [hrot]
  have hrm : ∀ k, p.remove_compromised_key k = (p, false) := by
    intro k
    unfold APIKeyManager.remove_compromised_key
    simp [h]
  unfold APIKeyManager.handle_api_error APIKeyManager.keyToRemove
  split
  · cases ck with
    | none => simp [hcur, hq]
    | some k =>
        by_cases hk : k = ""
        · simp [hk, hcur, hq]
        · simp [hk, hrm, hrot]
  · exact hq

/-- Witness for C1: the empty pool (as left behind by revoking the last
key through a leaked error) satisfies the hypothesis, and `current()`
fails on it. -/
theorem C1_witness :
    (APIKeyManager.handle_api_error ⟨["k1"], 0, []⟩ "leaked" none).1.google_keys = [] ∧
    APIKeyManager.get_current_google_key
      (APIKeyManager.handle_api_error ⟨["k1"], 0, []⟩ "leaked" none).1 = none :=
  ⟨by decide,
   (C1_exhausted_pool_current_fails
     (APIKeyManager.handle_api_error ⟨["k1"], 0, []⟩ "leaked" none).1 (by decide)).1⟩

/-- C9: once a leaked/compromised-classified error has revoked the current
credential `c` (the pool holding no duplicate keys, per the spec's data
model), no sequence of subsequent pool operations — rotations included,
even ones that exhaust the remaining pool — can make `current()` return
`c` again. -/
theorem C9_compromised_never_current_again
    (p : APIKeyManager) (c err : String) (ops : List PoolOp)
    (hnd : p.google_keys.Nodup) (hcur : p.get_current_google_key = some c)
    (hne : c ≠ "") (hleak : APIKeyManager.isLeakedError err = true) :
    APIKeyManager.get_current_google_key
      (APIKeyManager.applyOps (p.handle_api_error err none).1 ops) ≠ some c := by
  intro hsome
  exact APIKeyManager.notMem_applyOps ops _
    (APIKeyManager.handle_leaked_removes hnd hcur hne hleak)
    (APIKeyManager.mem_of_get_current hsome)

/-- Witness for C9: a duplicate-free two-key pool, a "leaked" error and two
subsequent rotations. -/
theorem C9_witness :
    (["ka", "kb"] : List String).Nodup ∧
    APIKeyManager.get_current_google_key ⟨["ka", "kb"], 0, []⟩ = some "ka" ∧
    ("ka" : String) ≠ "" ∧ APIKeyManager.isLeakedError "leaked" = true ∧
    APIKeyManager.get_current_google_key
      (APIKeyManager.applyOps
        (APIKeyManager.handle_api_error ⟨["ka", "kb"], 0, []⟩ "leaked" none).1
        [.rotate, .rotate]) ≠ some "ka" :=
  ⟨by decide, by decide, by decide, by decide,
   C9_compromised_never_current_again _ _ _ _ (by decide) (by decide) (by decide) (by decide)⟩

/-- C10: on a two-key pool, a leaked-classified error makes
`handle_api_error` revoke and remove the current key, yet return `false`:
the one remaining key makes the subsequent `rotate_google_key` a no-op
returning `false` — so a `false` return does not mean the pool was left
unchanged. -/
theorem C10_false_return_yet_pool_mutated :
    APIKeyManager.handle_api_error ⟨["alpha", "beta"], 0, []⟩ "leaked key" none
      = (⟨["beta"], 0, ["alpha"]⟩, false) := by decide

/-! ### Breaker lemmas -/

namespace CircuitBreaker

/-- The lazy state check never touches the counters or the clock stamp. -/
theorem stateQuery_fields (cb : CircuitBreaker) (now : Int) :
    (stateQuery cb now).failure_count = cb.failure_count ∧
    (stateQuery cb now).success_count = cb.success_count ∧
    (stateQuery cb now).last_failure_time = cb.last_failure_time ∧
    (stateQuery cb now).total_failures = cb.total_failures ∧
    (stateQuery cb now).half_open_max_calls = cb.half_open_max_calls ∧
    (stateQuery cb now).total_calls = cb.total_calls := by
  unfold stateQuery transition_to_half_open
  split <;> simp

/-- Bumping `total_calls` does not change the elapsed-time test. -/
theorem should_attempt_reset_bump (cb : CircuitBreaker) (now : Int) (n : Nat) :
    should_attempt_reset { cb with total_calls := n } now = should_attempt_reset cb now := rfl

/-- Bumping `total_calls` does not change what the lazy state check
returns. -/
theorem stateQuery_state_bump (cb : CircuitBreaker) (now : Int) :
    (stateQuery { cb with total_calls := cb.total_calls + 1 } now).state
      = (stateQuery cb now).state := by
  unfold stateQuery
  by_cases h : cb.state = CircuitState.OPEN ∧ cb.should_attempt_reset now = true
  · rw [if_pos (by simpa [should_attempt_reset_bump] using h), if_pos h]
    simp [transition_to_half_open]
  · rw [if_neg (by simpa [should_attempt_reset_bump] using h), if_neg h]

/-- The lazy state check only moves OPEN states. -/
theorem stateQuery_state_of_ne_open (cb : CircuitBreaker) (now : Int)
    (h : cb.state ≠ .OPEN) : (stateQuery cb now).state = cb.state := by
  unfold stateQuery
  rw [if_neg (fun hc => h hc.1)]

end CircuitBreaker

/-! ### Claim theorems: the circuit breaker -/

/-- Counterexample to C2 as stated: `successCount` is *not* reset on entry
to every state. A fresh breaker (`failureThreshold = 1`,
`timeoutSeconds = 5`, `halfOpenMaxCalls = 2`) that sees one success and
then the tripping failure enters OPEN with `successCount = 1`; after the
timeout, the *first* HALF_OPEN success then pushes `successCount` to `2`
and immediately transitions to CLOSED — not to HALF_OPEN with
`successCount = 1` as the claim requires. -/
theorem C2_counterexample :
    (CircuitBreaker.runCalls (CircuitBreaker.mkCircuitBreaker 1 5 2)
        ([((0 : Int), .ok 0), (1, .exc true)] : List (Int × Outcome Nat))).state
      = .OPEN ∧
    (CircuitBreaker.runCalls (CircuitBreaker.mkCircuitBreaker 1 5 2)
        ([((0 : Int), .ok 0), (1, .exc true)] : List (Int × Outcome Nat))).success_count
      = 1 ∧
    ((CircuitBreaker.runCalls (CircuitBreaker.mkCircuitBreaker 1 5 2)
        ([((0 : Int), .ok 0), (1, .exc true)] : List (Int × Outcome Nat))).call 7
        (.ok (0 : Nat))).1.state = .CLOSED := by decide

/-- C2 (amended): `successCount` is reset only on entry to CLOSED, not on
entry to every state. Provided the breaker sits in OPEN with
`successCount = 0` (as after a trip by consecutive failures from a fresh
breaker), with `timeoutSeconds = 5` and `halfOpenMaxCalls = 2`: once ≥ 5 s
have elapsed since the last failure, the next `call()` transitions to
HALF_OPEN and its success sets `successCount = 1` (not ≥ 2), and only a
second consecutive success transitions to CLOSED with `failureCount = 0`. -/
theorem C2_amended_half_open_recovery (cb : CircuitBreaker) (t now1 now2 : Int)
    (hstate : cb.state = .OPEN) (hsc : cb.success_count = 0)
    (hmax : cb.half_open_max_calls = 2) (htimeout : cb.timeout_seconds = 5)
    (hlast : cb.last_failure_time = some t) (helapsed : now1 - t ≥ 5) :
    ((cb.call now1 (.ok (0 : Nat))).1.state = .HALF_OPEN ∧
     (cb.call now1 (.ok (0 : Nat))).1.success_count = 1) ∧
    (((cb.call now1 (.ok (0 : Nat))).1.call now2 (.ok (0 : Nat))).1.state = .CLOSED ∧
     ((cb.call now1 (.ok (0 : Nat))).1.call now2 (.ok (0 : Nat))).1.failure_count = 0) := by
  simp only [CircuitBreaker.call, CircuitBreaker.stateQuery, CircuitBreaker.should_attempt_reset,
    CircuitBreaker.transition_to_half_open, CircuitBreaker.on_success,
    CircuitBreaker.transition_to_closed, hstate, hsc, hmax, htimeout, hlast]
  simp [helapsed]

/-- Witness for the amended C2 on a fresh breaker tripped at `t = 1`,
probed at `t = 6` and `t = 7`. -/
theorem C2_amended_witness :
    (CircuitBreaker.runCalls (CircuitBreaker.mkCircuitBreaker 1 5 2)
        ([((1 : Int), .exc true)] : List (Int × Outcome Nat))).state = .OPEN ∧
    (CircuitBreaker.runCalls (CircuitBreaker.mkCircuitBreaker 1 5 2)
        ([((1 : Int), .exc true)] : List (Int × Outcome Nat))).success_count = 0 ∧
    (6 : Int) - 1 ≥ 5 ∧
    (((CircuitBreaker.runCalls (CircuitBreaker.mkCircuitBreaker 1 5 2)
          ([((1 : Int), .exc true)] : List (Int × Outcome Nat))).call 6
          (.ok (0 : Nat))).1.state = .HALF_OPEN ∧
     ((CircuitBreaker.runCalls (CircuitBreaker.mkCircuitBreaker 1 5 2)
          ([((1 : Int), .exc true)] : List (Int × Outcome Nat))).call 6
          (.ok (0 : Nat))).1.success_count = 1) ∧
    ((((CircuitBreaker.runCalls (CircuitBreaker.mkCircuitBreaker 1 5 2)
          ([((1 : Int), .exc true)] : List (Int × Outcome Nat))).call 6
          (.ok (0 : Nat))).1.call 7 (.ok (0 : Nat))).1.state = .CLOSED ∧
     (((CircuitBreaker.runCalls (CircuitBreaker.mkCircuitBreaker 1 5 2)
          ([((1 : Int), .exc true)] : List (Int × Outcome Nat))).call 6
          (.ok (0 : Nat))).1.call 7 (.ok (0 : Nat))).1.failure_count = 0) :=
  ⟨by decide, by decide, by decide,
   C2_amended_half_open_recovery _ 1 6 7 (by decide) (by decide) (by decide) (by decide)
     (by decide) (by decide)⟩

/-- Counterexample to C3 as stated: a counted failure in HALF_OPEN does
*not* set `successCount` to `0`. With `failureThreshold = 1`,
`timeoutSeconds = 5`, `halfOpenMaxCalls = 3`: trip at `t = 0`, succeed once
in HALF_OPEN at `t = 10` (`successCount = 1`), fail at `t = 11` — the
breaker returns to OPEN but keeps `successCount = 1`. -/
theorem C3_counterexample :
    (CircuitBreaker.runCalls (CircuitBreaker.mkCircuitBreaker 1 5 3)
        ([((0 : Int), .exc true), (10, .ok 0), (11, .exc true)] :
          List (Int × Outcome Nat))).state = .OPEN ∧
    (CircuitBreaker.runCalls (CircuitBreaker.mkCircuitBreaker 1 5 3)
        ([((0 : Int), .exc true), (10, .ok 0), (11, .exc true)] :
          List (Int × Outcome Nat))).success_count = 1 := by decide

/-- C3 (amended): from every HALF_OPEN state with a free probe slot, a
single counted failure during `call()` immediately transitions back to
OPEN with `lastFailureTime = now` and `failureCount` incremented,
regardless of prior successes in the episode — but `successCount` is left
unchanged (it is only zeroed on a transition to CLOSED), not set to `0`. -/
theorem C3_amended_half_open_failure_reopens (cb : CircuitBreaker) (now : Int)
    (hstate : cb.state = .HALF_OPEN)
    (hfree : cb.half_open_calls < cb.half_open_max_calls) :
    (cb.call now (.exc true : Outcome Nat)).2 = .raised true ∧
    (cb.call now (.exc true : Outcome Nat)).1.state = .OPEN ∧
    (cb.call now (.exc true : Outcome Nat)).1.last_failure_time = some now ∧
    (cb.call now (.exc true : Outcome Nat)).1.success_count = cb.success_count ∧
    (cb.call now (.exc true : Outcome Nat)).1.failure_count = cb.failure_count + 1 := by
  simp only [CircuitBreaker.call, CircuitBreaker.stateQuery, CircuitBreaker.should_attempt_reset,
    CircuitBreaker.on_failure, CircuitBreaker.transition_to_open, hstate]
  simp [Nat.not_le.mpr hfree, hstate]

/-- Witness for the amended C3 at the HALF_OPEN state reached by trip at
`t = 0` and one probe success at `t = 10`, failing at `t = 11`. -/
theorem C3_amended_witness :
    (CircuitBreaker.runCalls (CircuitBreaker.mkCircuitBreaker 1 5 3)
        ([((0 : Int), .exc true), (10, .ok 0)] : List (Int × Outcome Nat))).state
      = .HALF_OPEN ∧
    (CircuitBreaker.runCalls (CircuitBreaker.mkCircuitBreaker 1 5 3)
        ([((0 : Int), .exc true), (10, .ok 0)] : List (Int × Outcome Nat))).half_open_calls
      < (CircuitBreaker.runCalls (CircuitBreaker.mkCircuitBreaker 1 5 3)
        ([((0 : Int), .exc true), (10, .ok 0)] :
          List (Int × Outcome Nat))).half_open_max_calls ∧
    ((CircuitBreaker.runCalls (CircuitBreaker.mkCircuitBreaker 1 5 3)
        ([((0 : Int), .exc true), (10, .ok 0)] : List (Int × Outcome Nat))).call 11
        (.exc true : Outcome Nat)).1.state = .OPEN ∧
    ((CircuitBreaker.runCalls (CircuitBreaker.mkCircuitBreaker 1 5 3)
        ([((0 : Int), .exc true), (10, .ok 0)] : List (Int × Outcome Nat))).call 11
        (.exc true : Outcome Nat)).1.last_failure_time = some 11 :=
  ⟨by decide, by decide,
   (C3_amended_half_open_failure_reopens _ 11 (by decide) (by decide)).2.1,
   (C3_amended_half_open_failure_reopens _ 11 (by decide) (by decide)).2.2.1⟩

/-- C7: when an admitted call's downstream function raises an exception
that does not match the breaker's configured predicate, the exception is
re-raised unchanged and no outcome bookkeeping happens: `failureCount`,
`successCount`, `lastFailureTime` and `totalFailures` keep their pre-call
values, and the state-machine position is exactly what the admission-time
lazy check produced (in particular, unchanged whenever the breaker was not
OPEN). Only the admission counters (`totalCalls`, and in HALF_OPEN the
probe budget) move, and those move before the downstream function runs. -/
theorem C7_uncounted_exception_passes_through (cb : CircuitBreaker) (now : Int)
    (h : (cb.call now (.exc false : Outcome Nat)).2 ≠ .circuitBreakerError) :
    (cb.call now (.exc false : Outcome Nat)).2 = .raised false ∧
    (cb.call now (.exc false : Outcome Nat)).1.failure_count = cb.failure_count ∧
    (cb.call now (.exc false : Outcome Nat)).1.success_count = cb.success_count ∧
    (cb.call now (.exc false : Outcome Nat)).1.last_failure_time = cb.last_failure_time ∧
    (cb.call now (.exc false : Outcome Nat)).1.total_failures = cb.total_failures ∧
    (cb.call now (.exc false : Outcome Nat)).1.total_calls = cb.total_calls + 1 ∧
    (cb.call now (.exc false : Outcome Nat)).1.state = (CircuitBreaker.stateQuery cb now).state ∧
    (cb.state ≠ .OPEN → (cb.call now (.exc false : Outcome Nat)).1.state = cb.state) := by
  by_cases hO : cb.state = CircuitState.OPEN
  · cases hLt : cb.last_failure_time with
    | none =>
        exfalso
        apply h
        simp [CircuitBreaker.call, CircuitBreaker.stateQuery, CircuitBreaker.should_attempt_reset,
          hO, hLt]
    | some t =>
        by_cases hE : now - t ≥ cb.timeout_seconds
        · by_cases hcap : cb.half_open_max_calls ≤ 0
          · exfalso
            apply h
            simp [CircuitBreaker.call, CircuitBreaker.stateQuery,
              CircuitBreaker.should_attempt_reset, CircuitBreaker.transition_to_half_open,
              hO, hLt, hE, hcap]
          · simp [CircuitBreaker.call, CircuitBreaker.stateQuery,
              CircuitBreaker.should_attempt_reset, CircuitBreaker.transition_to_half_open,
              hO, hLt, hE, hcap]
        · exfalso
          apply h
          simp [CircuitBreaker.call, CircuitBreaker.stateQuery,
            CircuitBreaker.should_attempt_reset, hO, hLt, hE]
  · by_cases hH : cb.state = CircuitState.HALF_OPEN
    · by_cases hcap : cb.half_open_max_calls ≤ cb.half_open_calls
      · exfalso
        apply h
        simp [CircuitBreaker.call, CircuitBreaker.stateQuery, hO, hH, hcap]
      · simp [CircuitBreaker.call, CircuitBreaker.stateQuery, hO, hH, hcap]
    · simp [CircuitBreaker.call, CircuitBreaker.stateQuery, hO, hH]

/-- Witness for C7: a fresh CLOSED breaker admits the call and the
uncounted exception passes through with no bookkeeping. -/
theorem C7_witness :
    ((CircuitBreaker.mkCircuitBreaker 5 60 2).call 3 (.exc false : Outcome Nat)).2
      ≠ .circuitBreakerError ∧
    ((CircuitBreaker.mkCircuitBreaker 5 60 2).call 3 (.exc false : Outcome Nat)).2
      = .raised false ∧
    ((CircuitBreaker.mkCircuitBreaker 5 60 2).call 3 (.exc false : Outcome Nat)).1.failure_count
      = (CircuitBreaker.mkCircuitBreaker 5 60 2).failure_count :=
  ⟨by decide,
   (C7_uncounted_exception_passes_through (CircuitBreaker.mkCircuitBreaker 5 60 2) 3
     (by decide)).1,
   (C7_uncounted_exception_passes_through (CircuitBreaker.mkCircuitBreaker 5 60 2) 3
     (by decide)).2.1⟩

/-! ### Rate limiter lemmas -/

namespace RateLimiter

/-- On a time-ordered window, popping stale entries from the left is the
same as filtering to the entries at most `dur` seconds old. -/
theorem pruneWindow_eq_filter (now dur : Int) (w : List Int)
    (hs : w.Pairwise (· ≤ ·)) :
    pruneWindow now dur w = w.filter (fun ts => decide (now - ts ≤ dur)) := by
  induction w with
  | nil => rfl
  | cons a l ih =>
      rw [List.pairwise_cons] at hs
      unfold pruneWindow at ih ⊢
      rw [List.dropWhile_cons, List.filter_cons]
      by_cases ha : now - a ≤ dur
      · have hfl : l.filter (fun ts => decide (now - ts ≤ dur)) = l :=
          List.filter_eq_self.mpr (fun b hb => by
            have hab := hs.1 b hb
            simp only [decide_eq_true_eq]
            omega)
        simp only [decide_eq_true_eq]
        rw [if_neg (by omega), if_pos ha, hfl]
      · simp only [decide_eq_true_eq]
        rw [if_pos (by omega), if_neg ha, ih hs.2]

/-- On a time-ordered window whose entries are not in the future, the
pruned length is exactly the count inside `[now − dur, now]`. -/
theorem pruneWindow_length_eq_countWithin (now dur : Int) (w : List Int)
    (hs : w.Pairwise (· ≤ ·)) (hb : ∀ ts ∈ w, ts ≤ now) :
    (pruneWindow now dur w).length = countWithin now dur w := by
  rw [pruneWindow_eq_filter now dur w hs]
  unfold countWithin
  congr 1
  apply List.filter_congr
  intro x hx
  have := hb x hx
  rw [decide_eq_decide]
  exact ⟨fun h2 => ⟨h2, this⟩, fun h2 => h2.1⟩

end RateLimiter

/-! ### Claim theorems: the rate limiter -/

/-- Counterexample to C4 as stated: `_time_until_available` can return `0`
while a configured window *is* at capacity. With `requestsPerMinute = 2`
and `requestsPerHour = 1`, one request at `t = 0`: at `t = 10` the hour
window is full (count `1 ≥ 1`, so the claim demands `3600 − 10 = 3590`),
yet the function returns `0` because the minute window has a free slot. -/
theorem C4_counterexample :
    RateLimiter.time_until_available
      { requests_per_minute := 2, requests_per_hour := some 1, requests_per_day := none,
        minute_window := [0], hour_window := some [0], day_window := none,
        total_requests := 1, total_blocked := 0 } 10 = some 0 ∧
    ((RateLimiter.clean_old_requests 10
      { requests_per_minute := 2, requests_per_hour := some 1, requests_per_day := none,
        minute_window := [0], hour_window := some [0], day_window := none,
        total_requests := 1, total_blocked := 0 }).hour_window.getD []).length ≥ 1 := by decide

/-- C4 (amended): `_time_until_available` consults the minute window only.
Its result is invariant under arbitrary changes to the hour/day windows and
limits; after pruning it returns `0` whenever the minute window is below
`requestsPerMinute`, and `max 0 (60 − (now − oldestMinuteTimestamp))` when
the minute window is at capacity — even if an hour or day window is the
binding full window. -/
theorem C4_amended_minute_window_only (lim : RateLimiter) (now : Int)
    (rh rd : Option Nat) (hw dw : Option (List Int)) :
    RateLimiter.time_until_available
        { lim with requests_per_hour := rh, requests_per_day := rd, hour_window := hw, day_window := dw } now
      = RateLimiter.time_until_available lim now ∧
    ((RateLimiter.clean_old_requests now lim).minute_window.length < lim.requests_per_minute →
      RateLimiter.time_until_available lim now = some 0) ∧
    (∀ o rest, (RateLimiter.clean_old_requests now lim).minute_window = o :: rest →
      ¬((RateLimiter.clean_old_requests now lim).minute_window.length < lim.requests_per_minute) →
      RateLimiter.time_until_available lim now = some (max 0 (60 - (now - o)))) := by
  refine ⟨rfl, ?_, ?_⟩
  · intro h
    show (if (RateLimiter.clean_old_requests now lim).minute_window.length <
          (RateLimiter.clean_old_requests now lim).requests_per_minute then some 0
        else
          match (RateLimiter.clean_old_requests now lim).minute_window.head? with
          | none => none
          | some oldest => some (max 0 (60 - (now - oldest)))) = some 0
    have h2 : (RateLimiter.clean_old_requests now lim).minute_window.length <
        (RateLimiter.clean_old_requests now lim).requests_per_minute := h
    rw [if_pos h2]
  · intro o rest heq h
    show (if (RateLimiter.clean_old_requests now lim).minute_window.length <
          (RateLimiter.clean_old_requests now lim).requests_per_minute then some 0
        else
          match (RateLimiter.clean_old_requests now lim).minute_window.head? with
          | none => none
          | some oldest => some (max 0 (60 - (now - oldest)))) = some (max 0 (60 - (now - o)))
    have h2 : ¬(RateLimiter.clean_old_requests now lim).minute_window.length <
        (RateLimiter.clean_old_requests now lim).requests_per_minute := h
    rw [if_neg h2, heq]
    rfl

/-- Witness for the amended C4: a full one-slot minute window at `t = 10`
yields `some 50`, applying the theorem's capacity branch. -/
theorem C4_amended_witness :
    (RateLimiter.clean_old_requests 10
      { requests_per_minute := 1, requests_per_hour := none, requests_per_day := none,
        minute_window := [0], hour_window := none, day_window := none,
        total_requests := 1, total_blocked := 0 }).minute_window = [(0 : Int)] ∧
    RateLimiter.time_until_available
      { requests_per_minute := 1, requests_per_hour := none, requests_per_day := none,
        minute_window := [0], hour_window := none, day_window := none,
        total_requests := 1, total_blocked := 0 } 10 = some 50 :=
  ⟨by decide,
   by
    have h := (C4_amended_minute_window_only
      { requests_per_minute := 1, requests_per_hour := none, requests_per_day := none,
        minute_window := [0], hour_window := none, day_window := none,
        total_requests := 1, total_blocked := 0 } 10 none none none none).2.2 0 []
      (by decide) (by decide)
    simpa using h⟩

/-- Counterexample to C5's "in particular": a request at `t = 61` is *not*
admitted after 60 requests that occurred at times in `[0, 60)` — here all
at `t = 30` — because `t = 30` still lies inside the closed window
`[1, 61]`; the sixty timestamps survive pruning and fill the minute quota. -/
theorem C5_counterexample :
    (RateLimiter.try_acquire
      { requests_per_minute := 60, requests_per_hour := none, requests_per_day := none,
        minute_window := List.replicate 60 (30 : Int), hour_window := none, day_window := none,
        total_requests := 60, total_blocked := 0 } 61).2 = false ∧
    ∀ ts ∈ List.replicate 60 (30 : Int), 0 ≤ ts ∧ ts < 60 := by decide

/-- C5 (amended): admission is window-exact over the *closed* sliding
window `[t − durationSeconds, t]`: for every limiter state whose windows
are time-ordered, not in the future, and configured consistently with
construction (a window exists iff its limit is truthy), `try_acquire` at
`now` admits iff every configured window currently holds fewer than its
limit of timestamps inside its closed window. A request at `t = 61` after
a full minute quota is admitted only when those timestamps fall outside
`[1, 61]` (e.g. all at `t = 0`), not for arbitrary times in `[0, 60)`. -/
theorem C5_amended_window_exact_iff (lim : RateLimiter) (now : Int)
    (hms : lim.minute_window.Pairwise (· ≤ ·))
    (hmb : ∀ ts ∈ lim.minute_window, ts ≤ now)
    (hh : ∀ w, lim.hour_window = some w → w.Pairwise (· ≤ ·) ∧ ∀ ts ∈ w, ts ≤ now)
    (hd : ∀ w, lim.day_window = some w → w.Pairwise (· ≤ ·) ∧ ∀ ts ∈ w, ts ≤ now)
    (hwfh : lim.hour_window.isSome = optTruthy lim.requests_per_hour)
    (hwfd : lim.day_window.isSome = optTruthy lim.requests_per_day) :
    (lim.try_acquire now).2 = true ↔
      (countWithin now 60 lim.minute_window < lim.requests_per_minute ∧
       (∀ w n, lim.hour_window = some w → lim.requests_per_hour = some n →
          countWithin now 3600 w < n) ∧
       (∀ w n, lim.day_window = some w → lim.requests_per_day = some n →
          countWithin now 86400 w < n)) := by
  have hm := RateLimiter.pruneWindow_length_eq_countWithin now 60 lim.minute_window hms hmb
  rcases hhw : lim.hour_window with _ | wh <;> rcases hdw : lim.day_window with _ | wd
  · by_cases hc : lim.requests_per_minute ≤ countWithin now 60 lim.minute_window
    · simp [RateLimiter.try_acquire, RateLimiter.clean_old_requests, RateLimiter.deqTruthy,
        hhw, hdw, hc, hm]
    · simp [RateLimiter.try_acquire, RateLimiter.clean_old_requests, RateLimiter.deqTruthy,
        hhw, hdw, hc, hm]
      omega
  · -- hour none, day some wd
    have htr : optTruthy lim.requests_per_day = true := by rw [← hwfd, hdw]; rfl
    rcases hrn : lim.requests_per_day with _ | n
    · rw [hrn] at htr
      exact absurd htr (by simp [optTruthy])
    · have hn0 : n ≠ 0 := by
        rw [hrn] at htr
        simpa [optTruthy] using htr
      obtain ⟨hws, hwb⟩ := hd wd hdw
      have hd2 := RateLimiter.pruneWindow_length_eq_countWithin now 86400 wd hws hwb
      have hdemp : (RateLimiter.pruneWindow now 86400 wd).isEmpty = true ↔
          countWithin now 86400 wd = 0 := by
        rw [List.isEmpty_iff_length_eq_zero, hd2]
      by_cases hc : lim.requests_per_minute ≤ countWithin now 60 lim.minute_window
      · simp [RateLimiter.try_acquire, RateLimiter.clean_old_requests, RateLimiter.deqTruthy,
          hhw, hdw, hrn, hc, hm]
      · by_cases hcd : n ≤ countWithin now 86400 wd
        · have hdne : RateLimiter.pruneWindow now 86400 wd ≠ [] := by
            intro h0
            rw [h0] at hd2
            simp at hd2
            omega
          simp [RateLimiter.try_acquire, RateLimiter.clean_old_requests, RateLimiter.deqTruthy,
            hhw, hdw, hrn, hc, hm, hd2, hcd, hdne, optTruthy, hn0]
        · simp [RateLimiter.try_acquire, RateLimiter.clean_old_requests, RateLimiter.deqTruthy,
            hhw, hdw, hrn, hc, hm, hd2, hcd]
          omega
  · -- hour some wh, day none
    have htr : optTruthy lim.requests_per_hour = true := by rw [← hwfh, hhw]; rfl
    rcases hrn : lim.requests_per_hour with _ | n
    · rw [hrn] at htr
      exact absurd htr (by simp [optTruthy])
    · have hn0 : n ≠ 0 := by
        rw [hrn] at htr
        simpa [optTruthy] using htr
      obtain ⟨hws, hwb⟩ := hh wh hhw
      have hh2 := RateLimiter.pruneWindow_length_eq_countWithin now 3600 wh hws hwb
      by_cases hc : lim.requests_per_minute ≤ countWithin now 60 lim.minute_window
      · simp [RateLimiter.try_acquire, RateLimiter.clean_old_requests, RateLimiter.deqTruthy,
          hhw, hdw, hrn, hc, hm]
      · by_cases hch : n ≤ countWithin now 3600 wh
        · have hhne : RateLimiter.pruneWindow now 3600 wh ≠ [] := by
            intro h0
            rw [h0] at hh2
            simp at hh2
            omega
          simp [RateLimiter.try_acquire, RateLimiter.clean_old_requests, RateLimiter.deqTruthy,
            hhw, hdw, hrn, hc, hm, hh2, hch, hhne, optTruthy, hn0]
        · simp [RateLimiter.try_acquire, RateLimiter.clean_old_requests, RateLimiter.deqTruthy,
            hhw, hdw, hrn, hc, hm, hh2, hch]
          omega
  · -- hour some wh, day some wd
    have htrh : optTruthy lim.requests_per_hour = true := by rw [← hwfh, hhw]; rfl
    have htrd : optTruthy lim.requests_per_day = true := by rw [← hwfd, hdw]; rfl
    rcases hrnh : lim.requests_per_hour with _ | nh
    · rw [hrnh] at htrh
      exact absurd htrh (by simp [optTruthy])
    · rcases hrnd : lim.requests_per_day with _ | nd
      · rw [hrnd] at htrd
        exact absurd htrd (by simp [optTruthy])
      · have hn0h : nh ≠ 0 := by
          rw [hrnh] at htrh
          simpa [optTruthy] using htrh
        have hn0d : nd ≠ 0 := by
          rw [hrnd] at htrd
          simpa [optTruthy] using htrd
        obtain ⟨hwsh, hwbh⟩ := hh wh hhw
        obtain ⟨hwsd, hwbd⟩ := hd wd hdw
        have hh2 := RateLimiter.pruneWindow_length_eq_countWithin now 3600 wh hwsh hwbh
        have hd2 := RateLimiter.pruneWindow_length_eq_countWithin now 86400 wd hwsd hwbd
        by_cases hc : lim.requests_per_minute ≤ countWithin now 60 lim.minute_window
        · simp [RateLimiter.try_acquire, RateLimiter.clean_old_requests, RateLimiter.deqTruthy,
            hhw, hdw, hrnh, hrnd, hc, hm]
        · by_cases hch : nh ≤ countWithin now 3600 wh
          · have hhne : RateLimiter.pruneWindow now 3600 wh ≠ [] := by
              intro h0
              rw [h0] at hh2
              simp at hh2
              omega
            simp [RateLimiter.try_acquire, RateLimiter.clean_old_requests, RateLimiter.deqTruthy,
              hhw, hdw, hrnh, hrnd, hc, hm, hh2, hch, hhne, optTruthy, hn0h]
          · by_cases hcd : nd ≤ countWithin now 86400 wd
            · have hdne : RateLimiter.pruneWindow now 86400 wd ≠ [] := by
                intro h0
                rw [h0] at hd2
                simp at hd2
                omega
              simp [RateLimiter.try_acquire, RateLimiter.clean_old_requests, RateLimiter.deqTruthy,
                hhw, hdw, hrnh, hrnd, hc, hm, hh2, hch, hd2, hcd, hdne, optTruthy, hn0d]
            · simp [RateLimiter.try_acquire, RateLimiter.clean_old_requests, RateLimiter.deqTruthy,
                hhw, hdw, hrnh, hrnd, hc, hm, hh2, hch, hd2, hcd]
              omega

/-- Pruning only pops from the left: the result is a suffix. -/
theorem pruneWindow_suffix (now dur : Int) (w : List Int) :
    RateLimiter.pruneWindow now dur w <:+ w := List.dropWhile_suffix _

/-- `_clean_old_requests` leaves every window a suffix of what it was. -/
theorem cleaned_windows_suffix (lim : RateLimiter) (now : Int) :
    (RateLimiter.clean_old_requests now lim).minute_window <:+ lim.minute_window ∧
    (∀ w2, (RateLimiter.clean_old_requests now lim).hour_window = some w2 →
        ∃ w, lim.hour_window = some w ∧ w2 <:+ w) ∧
    (∀ w2, (RateLimiter.clean_old_requests now lim).day_window = some w2 →
        ∃ w, lim.day_window = some w ∧ w2 <:+ w) := by
  refine ⟨pruneWindow_suffix _ _ _, ?_, ?_⟩
  · intro w2 hw2
    rcases hh : lim.hour_window with _ | wh
    · rw [RateLimiter.clean_old_requests] at hw2
      simp [hh] at hw2
    · rw [RateLimiter.clean_old_requests] at hw2
      simp only [hh, Option.map_some', Option.some.injEq] at hw2
      exact ⟨wh, rfl, hw2 ▸ pruneWindow_suffix _ _ _⟩
  · intro w2 hw2
    rcases hh : lim.day_window with _ | wd
    · rw [RateLimiter.clean_old_requests] at hw2
      simp [hh] at hw2
    · rw [RateLimiter.clean_old_requests] at hw2
      simp only [hh, Option.map_some', Option.some.injEq] at hw2
      exact ⟨wd, rfl, hw2 ▸ pruneWindow_suffix _ _ _⟩

/-- Counterexample to C6 as stated: a rejected `try_acquire` *does* mutate
limiter state — the `total_blocked` statistic is incremented (here from `0`
to `1`), so the post-state differs from the pre-state. -/
theorem C6_counterexample :
    (RateLimiter.try_acquire
      { requests_per_minute := 1, requests_per_hour := none, requests_per_day := none,
        minute_window := [0], hour_window := none, day_window := none,
        total_requests := 1, total_blocked := 0 } 5).2 = false ∧
    (RateLimiter.try_acquire
      { requests_per_minute := 1, requests_per_hour := none, requests_per_day := none,
        minute_window := [0], hour_window := none, day_window := none,
        total_requests := 1, total_blocked := 0 } 5).1 ≠
      { requests_per_minute := 1, requests_per_hour := none, requests_per_day := none,
        minute_window := [0], hour_window := none, day_window := none,
        total_requests := 1, total_blocked := 0 } := by decide

/-- C6 (amended): when `try_acquire` rejects, no timestamp is appended to
any window — every window of the post-state is a (pruned) suffix of its
pre-state — and `total_requests` is unchanged; the only other mutation is
the `total_blocked` statistic, which is incremented by one. -/
theorem C6_amended_reject_only_prunes_and_counts (lim : RateLimiter) (now : Int)
    (h : (lim.try_acquire now).2 = false) :
    (lim.try_acquire now).1.minute_window <:+ lim.minute_window ∧
    (∀ w2, (lim.try_acquire now).1.hour_window = some w2 →
       ∃ w, lim.hour_window = some w ∧ w2 <:+ w) ∧
    (∀ w2, (lim.try_acquire now).1.day_window = some w2 →
       ∃ w, lim.day_window = some w ∧ w2 <:+ w) ∧
    (lim.try_acquire now).1.total_requests = lim.total_requests ∧
    (lim.try_acquire now).1.total_blocked = lim.total_blocked + 1 := by
  have hs := cleaned_windows_suffix lim now
  by_cases hc1 : (RateLimiter.clean_old_requests now lim).minute_window.length ≥
      (RateLimiter.clean_old_requests now lim).requests_per_minute
  · simp only [RateLimiter.try_acquire, if_pos hc1]
    exact ⟨hs.1, hs.2.1, hs.2.2, rfl, rfl⟩
  · by_cases hc2 : (RateLimiter.deqTruthy (RateLimiter.clean_old_requests now lim).hour_window &&
        optTruthy (RateLimiter.clean_old_requests now lim).requests_per_hour &&
        decide (((RateLimiter.clean_old_requests now lim).hour_window.getD []).length ≥
          (RateLimiter.clean_old_requests now lim).requests_per_hour.getD 0)) = true
    · simp only [RateLimiter.try_acquire, if_neg hc1, if_pos hc2]
      exact ⟨hs.1, hs.2.1, hs.2.2, rfl, rfl⟩
    · by_cases hc3 : (RateLimiter.deqTruthy (RateLimiter.clean_old_requests now lim).day_window &&
          optTruthy (RateLimiter.clean_old_requests now lim).requests_per_day &&
          decide (((RateLimiter.clean_old_requests now lim).day_window.getD []).length ≥
            (RateLimiter.clean_old_requests now lim).requests_per_day.getD 0)) = true
      · simp only [RateLimiter.try_acquire, if_neg hc1, hc2, if_pos hc3]
        exact ⟨hs.1, hs.2.1, hs.2.2, rfl, rfl⟩
      · exfalso
        apply Bool.false_ne_true
        rw [← h]
        simp only [RateLimiter.try_acquire, if_neg hc1, hc2, hc3]
        rfl


/-- Witness for the amended C6 at a concrete full-minute rejection. -/
theorem C6_amended_witness :
    (RateLimiter.try_acquire
      { requests_per_minute := 1, requests_per_hour := none, requests_per_day := none,
        minute_window := [2], hour_window := none, day_window := none,
        total_requests := 1, total_blocked := 3 } 5).2 = false ∧
    (RateLimiter.try_acquire
      { requests_per_minute := 1, requests_per_hour := none, requests_per_day := none,
        minute_window := [2], hour_window := none, day_window := none,
        total_requests := 1, total_blocked := 3 } 5).1.total_blocked = 3 + 1 :=
  ⟨by decide,
   (C6_amended_reject_only_prunes_and_counts
     { requests_per_minute := 1, requests_per_hour := none, requests_per_day := none,
       minute_window := [2], hour_window := none, day_window := none,
       total_requests := 1, total_blocked := 3 } 5 (by decide)).2.2.2.2⟩

/-- Witness for the amended C5: five requests at `t = 0` with
`requestsPerMinute = 5`; at `t = 61` they have left the closed window
`[1, 61]`, so `try_acquire` admits. -/
theorem C5_amended_witness :
    (List.replicate 5 (0:Int)).Pairwise (· ≤ ·) ∧
    (∀ ts ∈ List.replicate 5 (0:Int), ts ≤ (61:Int)) ∧
    (RateLimiter.try_acquire
      { requests_per_minute := 5, requests_per_hour := none, requests_per_day := none,
        minute_window := List.replicate 5 (0:Int), hour_window := none, day_window := none,
        total_requests := 5, total_blocked := 1 } 61).2 = true :=
  ⟨by decide, by decide,
   (C5_amended_window_exact_iff _ 61 (by decide) (by decide)
      (fun w h => Option.noConfusion h) (fun w h => Option.noConfusion h)
      (by decide) (by decide)).mpr
     ⟨by decide, fun w n h => Option.noConfusion h, fun w n h => Option.noConfusion h⟩⟩

/-- Counterexample to C8: not every cache configuration keeps `set` total.
With `maxSize = 0` and an empty cache, inserting a new key triggers
eviction of the "oldest" entry of an empty dict — `next(iter(self.cache))`
raises `StopIteration` (the modelled `Except.error ()`). -/
theorem C8_counterexample :
    TTLCache.set (TTLCache.mkTTLCache 10 0 : TTLCache Nat) "k" 5 none 0 = .error () := by rfl

/-- C8 (amended): for every configuration with `maxSize ≥ 1`, every
`TTLCache` operation is total: `set` always succeeds (`get`, `invalidate`,
`invalidate_pattern`, `cleanup_expired` and `clear` are total functions of
the state by construction), and absence is reported as a normal result —
`get` of an absent key returns `none` and `invalidate` of an absent key
returns `false`, leaving the cache unchanged, with no error. -/
theorem C8_total_when_capacity_positive {α : Type} (c : TTLCache α) (key : String) (v : α) (ttl : Option Int) (now : Int)
    (h : 1 ≤ c.max_size) :
    (TTLCache.set c key v ttl now).isOk = true ∧
    (TTLCache.lookupEntry key c.cache = none → (TTLCache.get c key now).2 = none) ∧
    (TTLCache.lookupEntry key c.cache = none →
      (TTLCache.invalidate c key).2 = false ∧ (TTLCache.invalidate c key).1 = c) := by
  refine ⟨?_, ?_, ?_⟩
  · unfold TTLCache.set
    split
    · rename_i hcond
      rcases hcache : c.cache with _ | ⟨kv, rest⟩
      · rw [hcache] at hcond
        simp at hcond
        omega
      · simp [Except.isOk, Except.map, Except.toBool]
    · simp [Except.isOk, Except.map, Except.toBool]
  · intro habs
    unfold TTLCache.get
    rw [habs]
  · intro habs
    unfold TTLCache.invalidate
    rw [if_neg (by simp [habs])]
    exact ⟨rfl, rfl⟩

/-- Witness for the amended C8 at a one-slot cache: `set` succeeds and a
`get` of the absent key is a plain miss. -/
theorem C8_amended_witness :
    1 ≤ (TTLCache.mkTTLCache 10 1 : TTLCache Nat).max_size ∧
    (TTLCache.set (TTLCache.mkTTLCache 10 1 : TTLCache Nat) "k" 5 none 0).isOk = true ∧
    (TTLCache.get (TTLCache.mkTTLCache 10 1 : TTLCache Nat) "k" 0).2 = none :=
  ⟨by decide,
   (C8_total_when_capacity_positive (TTLCache.mkTTLCache 10 1 : TTLCache Nat) "k" 5 none 0
     (by decide)).1,
   (C8_total_when_capacity_positive (TTLCache.mkTTLCache 10 1 : TTLCache Nat) "k" 5 none 0
     (by decide)).2.1 rfl⟩
